import Mathlib

/-!
Verification development for the query-generator repository.

Modelled components:
* the Query Safety Enforcement Engine (per-catalog policy evaluator and
  rewriter) — the backend implementation is not part of the frontend
  sources, so the engine is modelled from the specification;
* the frontend API client `QueryGeneratorAPIClient` (request retry loop,
  `generateQuery` client-state effects) — translated from
  `query-generator-frontend/lib/api-client.ts`;
* the policy dialog form helpers (`handleSave`, `addItem`, `removeItem`) —
  translated from the `PolicyDialog` component.
-/

namespace QueryGen

/-- Case-folding used for unquoted SQL identifiers (tables, columns,
schemas): identifier comparison is case-insensitive, normalized to lower
case (character-wise lower-casing of the text). -/
def foldId (s : String) : String := String.mk (s.data.map Char.toLower)

/-- Canonicalisation for SQL function names: functions are collected by
canonical uppercased name. -/
def foldFn (s : String) : String := String.mk (s.data.map Char.toUpper)

/-- Modelled from the spec: the `SecurityPolicy` snapshot consumed by the
engine (the backend policy model itself is not among the sources; the field
list follows the spec's data model and the frontend `SecurityPolicy`
interface).  The audit fields and the free-form `settings` map play no role
in evaluation and are omitted. -/
structure SecurityPolicy where
  allow_write : Bool
  default_limit : Option Nat
  max_rows_returned : Option Nat
  banned_tables : List String
  banned_columns : List String
  banned_schemas : List String
  pii_tags : List String
  pii_masking_enabled : Bool
  allowed_functions : Option (List String)
  blocked_functions : List String
  deriving Repr, DecidableEq

/-- A (possibly schema-qualified) table reference appearing in a query. -/
structure TableRef where
  schema : Option String
  name : String
  deriving Repr, DecidableEq

/-- One projection of a SELECT list: the expression text, the source column
name when the expression is a simple column reference, and an optional
output alias. -/
structure SelectItem where
  expr : String
  sourceCol : Option String
  outAlias : Option String
  deriving Repr, DecidableEq

/-- Modelled from the spec: a common table expression of a `WITH` clause:
its name and the identifiers referenced in its body (one level of nesting
suffices for the scope-shadowing behaviour the spec describes). -/
structure CteDef where
  name : String
  tables : List TableRef
  columns : List String
  functions : List String
  deriving Repr, DecidableEq

/-- Modelled from the spec: a parsed SELECT statement as the resolver sees
it: CTE definitions, referenced tables, SELECT-list projections, referenced
column names, called function names, and the optional LIMIT value. -/
structure SelectStmt where
  ctes : List CteDef
  tables : List TableRef
  projections : List SelectItem
  columns : List String
  functions : List String
  limit : Option Nat
  deriving Repr, DecidableEq

/-- Top-level kind of a write-shaped statement. -/
inductive WriteKind
  | insert
  | update
  | delete
  | merge
  | drop
  | alter
  | truncate
  | create
  deriving Repr, DecidableEq

/-- Display name of a write kind, used to tag `write_blocked` violations. -/
def writeKindName : WriteKind → String
  | .insert => "INSERT"
  | .update => "UPDATE"
  | .delete => "DELETE"
  | .merge => "MERGE"
  | .drop => "DROP"
  | .alter => "ALTER"
  | .truncate => "TRUNCATE"
  | .create => "CREATE"

/-- Modelled from the spec: one parsed statement tree.  The closed variant
type realises the spec's fail-closed design note: a construct the resolver
does not recognise is carried as `unsupported` and is treated as a hard
violation. -/
inductive Statement
  | selectStmt (s : SelectStmt)
  | writeStmt (k : WriteKind) (raw : String)
  | unsupported (desc : String)
  deriving Repr, DecidableEq

/-- The tagged reasons a query can be rejected for. -/
inductive ViolationKind
  | write_blocked
  | banned_table
  | banned_column
  | banned_schema
  | disallowed_function
  | multi_statement_rejected
  | unanalyzable_construct
  deriving Repr, DecidableEq

/-- A violation: a tagged reason plus the offending identifier. -/
structure Violation where
  kind : ViolationKind
  ident : String
  deriving Repr, DecidableEq

/-- The `applied_actions` metadata of a decision. -/
structure AppliedActions where
  default_limit_applied : Bool
  effective_limit : Option Nat
  pii_masking_applied : Bool
  masked_columns : List String
  deriving Repr, DecidableEq

/-- Modelled from the spec: the engine's sole output.  `final_sql = none`
means the query is rejected. -/
structure PolicyDecision where
  final_sql : Option String
  syntax_valid : Bool
  errors : List String
  warnings : List String
  violations : List Violation
  parsed_tables : List String
  parsed_columns : List String
  applied_actions : AppliedActions
  deriving Repr, DecidableEq

/-- The immutable candidate-query input. -/
structure CandidateQuery where
  sql : String
  dialect : String
  catalog_id : String
  deriving Repr, DecidableEq

/-- Modelled from the spec: split raw SQL text on statement-terminating
semicolons outside of string/quote context.  Single and double quotes
toggle quote context; a semicolon outside both terminates the current
statement. -/
def splitStmtChars : List Char → Bool → Bool → List Char → List (List Char)
  | [], _, _, cur => [cur.reverse]
  | c :: rest, inS, inD, cur =>
    if c = ';' && !inS && !inD then
      cur.reverse :: splitStmtChars rest false false []
    else if c = Char.ofNat 39 && !inD then
      splitStmtChars rest (!inS) inD (c :: cur)
    else if c = Char.ofNat 34 && !inS then
      splitStmtChars rest inS (!inD) (c :: cur)
    else
      splitStmtChars rest inS inD (c :: cur)

/-- The top-level statements of an input text: the semicolon-split pieces
that are not blank. -/
def topLevelStatements (sql : String) : List String :=
  ((splitStmtChars sql.data false false []).map (fun cs => String.mk cs)).filter
    (fun s => !(s.data.all Char.isWhitespace))

/-- The case-folded CTE names of a statement.  On entering the `WITH`
clause every CTE name is registered in the current scope before any body is
resolved (this supports self-referential and sequential CTEs). -/
def cteNamesFold (s : SelectStmt) : List String :=
  s.ctes.map (fun c => foldId c.name)

/-- Every table reference occurring in the statement: those inside CTE
bodies and those of the main query. -/
def allTableRefs (s : SelectStmt) : List TableRef :=
  (s.ctes.map (fun c => c.tables)).flatten ++ s.tables

/-- A reference is scope-local when it is unqualified and its folded name
is a registered CTE name. -/
def isScopeLocal (s : SelectStmt) (r : TableRef) : Bool :=
  r.schema.isNone && decide (foldId r.name ∈ cteNamesFold s)

/-- The resolver's table output: every reference that is not scope-local,
de-duplicated. -/
def resolvedTables (s : SelectStmt) : List TableRef :=
  ((allTableRefs s).filter (fun r => !(isScopeLocal s r))).dedup

/-- Qualified display name of a table reference. -/
def qname (r : TableRef) : String :=
  match r.schema with
  | some sch => sch ++ "." ++ r.name
  | none => r.name

/-- Banned-table check: a resolved table whose bare or qualified folded
name matches an entry of `banned_tables` yields a `banned_table`
violation. -/
def bannedTableViolations (s : SelectStmt) (p : SecurityPolicy) : List Violation :=
  (resolvedTables s).filterMap (fun r =>
    if foldId r.name ∈ p.banned_tables.map foldId ∨
        foldId (qname r) ∈ p.banned_tables.map foldId then
      some ⟨.banned_table, r.name⟩
    else none)

/-- Banned-schema check: a resolved table whose schema qualifier matches an
entry of `banned_schemas` yields a `banned_schema` violation. -/
def bannedSchemaViolations (s : SelectStmt) (p : SecurityPolicy) : List Violation :=
  ((resolvedTables s).filterMap (fun r => r.schema)).filterMap (fun sch =>
    if foldId sch ∈ p.banned_schemas.map foldId then
      some ⟨.banned_schema, sch⟩
    else none)

/-- Banned-column check: any referenced column (qualified binding proven or
not) matching `banned_columns` is a hard violation. -/
def bannedColumnViolations (s : SelectStmt) (p : SecurityPolicy) : List Violation :=
  s.columns.dedup.filterMap (fun c =>
    if foldId c ∈ p.banned_columns.map foldId then
      some ⟨.banned_column, c⟩
    else none)

/-- Whitelist mode is selected exactly when `allowed_functions` is present
and non-empty. -/
def whitelistMode (p : SecurityPolicy) : Bool :=
  !(p.allowed_functions.getD []).isEmpty

/-- The canonicalised function whitelist (empty outside whitelist mode). -/
def allowedFold (p : SecurityPolicy) : List String :=
  (p.allowed_functions.getD []).map foldFn

/-- Function restriction check: whitelist mode when `allowed_functions` is
present and non-empty (every resolved function not in the set is a
violation), otherwise blacklist mode against `blocked_functions`. -/
def functionViolations (s : SelectStmt) (p : SecurityPolicy) : List Violation :=
  ((s.functions.map foldFn).dedup).filterMap (fun f =>
    if whitelistMode p then
      if f ∈ allowedFold p then none else some ⟨.disallowed_function, f⟩
    else
      if f ∈ p.blocked_functions.map foldFn then some ⟨.disallowed_function, f⟩ else none)

/-- The rule evaluator: a pure function of the resolved identifiers and the
policy. -/
def selectViolations (s : SelectStmt) (p : SecurityPolicy) : List Violation :=
  bannedTableViolations s p ++ bannedSchemaViolations s p ++
    bannedColumnViolations s p ++ functionViolations s p

/-- PII masking of one projection: when the source column matches a PII
tag, the expression is replaced with a deterministic one-way hash of the
original expression, preserving the output alias (the original column name
serves as alias when none was given). -/
def maskProjection (piiFold : List String) (it : SelectItem) : SelectItem :=
  match it.sourceCol with
  | some c =>
    if foldId c ∈ piiFold then
      ⟨"SHA256(" ++ it.expr ++ ")", it.sourceCol, some (it.outAlias.getD c)⟩
    else it
  | none => it

/-- The source column name reported for a masked projection, `none` when
the projection is left untouched. -/
def maskedSource (piiFold : List String) (it : SelectItem) : Option String :=
  match it.sourceCol with
  | some c => if foldId c ∈ piiFold then some c else none
  | none => none

/-- The SELECT list after PII masking (unchanged when masking is
disabled). -/
def maskedProjections (s : SelectStmt) (p : SecurityPolicy) : List SelectItem :=
  if p.pii_masking_enabled then
    s.projections.map (maskProjection (p.pii_tags.map foldId))
  else s.projections

/-- The column names that were masked. -/
def maskedColumnsOf (s : SelectStmt) (p : SecurityPolicy) : List String :=
  if p.pii_masking_enabled then
    s.projections.filterMap (maskedSource (p.pii_tags.map foldId))
  else []

/-- Outcome of the LIMIT rewrite: the resulting limit clause and whether
the default-limit branch fired. -/
structure LimitOutcome where
  newLimit : Option Nat
  defaultApplied : Bool
  deriving Repr, DecidableEq

/-- LIMIT enforcement in the spec's precedence order: (a) an existing LIMIT
exceeding `max_rows_returned` is clamped down to it; (b) else a missing
LIMIT with `default_limit` set to a positive value appends that value;
(c) else a missing LIMIT with `max_rows_returned` set appends that bound
(`default_limit = 0` disables the automatic default limit and falls through
here); (d) otherwise the statement is unchanged. -/
def limitRewrite (cur : Option Nat) (p : SecurityPolicy) : LimitOutcome :=
  match cur with
  | some m =>
    match p.max_rows_returned with
    | some k => if k < m then ⟨some k, false⟩ else ⟨some m, false⟩
    | none => ⟨some m, false⟩
  | none =>
    match p.default_limit with
    | some n =>
      if 0 < n then ⟨some n, true⟩
      else
        match p.max_rows_returned with
        | some k => ⟨some k, false⟩
        | none => ⟨none, false⟩
    | none =>
      match p.max_rows_returned with
      | some k => ⟨some k, false⟩
      | none => ⟨none, false⟩

/-- The rewriter: PII masking of the SELECT list plus LIMIT enforcement,
returning the rewritten statement together with the applied-actions
metadata.  It only ever runs on a statement with an empty violation set. -/
def rewriteSelect (s : SelectStmt) (p : SecurityPolicy) : SelectStmt × AppliedActions :=
  ({ s with
      projections := maskedProjections s p
      limit := (limitRewrite s.limit p).newLimit },
   ⟨(limitRewrite s.limit p).defaultApplied,
    (limitRewrite s.limit p).newLimit,
    !(maskedColumnsOf s p).isEmpty,
    maskedColumnsOf s p⟩)

/-- Rendering of one projection. -/
def renderItem (it : SelectItem) : String :=
  match it.outAlias with
  | some a => it.expr ++ " AS " ++ a
  | none => it.expr

/-- Modelled from the spec: serialisation of the (possibly rewritten) tree
back to SQL text.  The real serialiser is the external sqlglot library;
this model renders the SELECT list, the FROM list and the limit clause,
which is all the decision assembler's contract that the claims touch. -/
def renderSelect (s : SelectStmt) : String :=
  "SELECT " ++ String.intercalate ", " (s.projections.map renderItem) ++
    " FROM " ++ String.intercalate ", " (s.tables.map qname) ++
    (match s.limit with
     | some n => " LIMIT " ++ toString n
     | none => "")

/-- Applied actions of a decision in which the rewriter did not run. -/
def emptyActions : AppliedActions := ⟨false, none, false, []⟩

/-- A rejected decision: no final SQL, the violation set carried along. -/
def rejectedDecision (vs : List Violation) (tabs cols : List String) : PolicyDecision :=
  { final_sql := none
    syntax_valid := true
    errors := []
    warnings := []
    violations := vs
    parsed_tables := tabs
    parsed_columns := cols
    applied_actions := emptyActions }

/-- The decision for unparseable input: `syntax_valid = false`, decision
rejected, no rewrite attempted. -/
def syntaxErrorDecision (msg : String) : PolicyDecision :=
  { final_sql := none
    syntax_valid := false
    errors := [msg]
    warnings := []
    violations := []
    parsed_tables := []
    parsed_columns := []
    applied_actions := emptyActions }

/-- The resolver's de-duplicated table-name output carried on the
decision. -/
def parsedTablesOf (s : SelectStmt) : List String :=
  ((resolvedTables s).map qname).dedup

/-- The resolver's de-duplicated column-name output carried on the
decision. -/
def parsedColumnsOf (s : SelectStmt) : List String :=
  (s.columns.map foldId).dedup

/-- The accepting decision for a violation-free SELECT: the rewritten tree
serialised back to text, with the applied-actions metadata. -/
def acceptSelectDecision (s : SelectStmt) (p : SecurityPolicy) : PolicyDecision :=
  { final_sql := some (renderSelect (rewriteSelect s p).1)
    syntax_valid := true
    errors := []
    warnings := []
    violations := []
    parsed_tables := parsedTablesOf s
    parsed_columns := parsedColumnsOf s
    applied_actions := (rewriteSelect s p).2 }

/-- Modelled from the spec: evaluation of one parsed statement.  A blocked
write short-circuits all further analysis; a write reaching the rewriter
because writes are allowed passes through unmodified; a SELECT is rewritten
only when its violation set is empty; an unrecognised construct is a hard
violation (fail-closed). -/
def evaluateStmt (st : Statement) (p : SecurityPolicy) : PolicyDecision :=
  match st with
  | .unsupported d => rejectedDecision [⟨.unanalyzable_construct, d⟩] [] []
  | .writeStmt k raw =>
    if p.allow_write then
      { final_sql := some raw
        syntax_valid := true
        errors := []
        warnings := []
        violations := []
        parsed_tables := []
        parsed_columns := []
        applied_actions := emptyActions }
    else
      rejectedDecision [⟨.write_blocked, writeKindName k⟩] [] []
  | .selectStmt s =>
    if (selectViolations s p).isEmpty then acceptSelectDecision s p
    else rejectedDecision (selectViolations s p) (parsedTablesOf s) (parsedColumnsOf s)

/-- The unconditional multi-statement rejection. -/
def multiStatementDecision : PolicyDecision :=
  rejectedDecision [⟨.multi_statement_rejected, ""⟩] [] []

/-- Modelled from the spec: the engine's sole operation
`evaluate(candidate_query, policy_snapshot)`.  The dialect parser proper is
the external library behind the Dialect Parser Adapter and is passed in as
`parse1`; the adapter's own multi-statement rejection is applied first,
regardless of policy. -/
def evaluate (parse1 : String → Option Statement) (q : CandidateQuery)
    (p : SecurityPolicy) : PolicyDecision :=
  if 1 < (topLevelStatements q.sql).length then multiStatementDecision
  else
    match parse1 q.sql with
    | none => syntaxErrorDecision "syntax error"
    | some st => evaluateStmt st p

/-! ### The frontend API client (`lib/api-client.ts`) -/

/-- The mutable fields of `QueryGeneratorAPIClient`: `token`, `baseUrl`,
`demoMode`. -/
structure ClientState where
  token : Option String
  baseUrl : String
  demoMode : Bool
  deriving Repr, DecidableEq

/-- What one `fetch` attempt can produce: an ok response, a non-ok HTTP
response, or a network-level failure. -/
inductive FetchOutcome
  | success (body : String)
  | httpError (status : Nat) (msg : String)
  | networkFailure (msg : String)
  deriving Repr, DecidableEq

/-- How the `request` helper ends: a returned body, a thrown
`AuthenticationError`, a thrown `ApiError`, or a thrown `NetworkError`
after all attempts. -/
inductive RequestResult
  | ok (body : String)
  | authError
  | apiError (status : Nat) (msg : String)
  | networkError
  deriving Repr, DecidableEq

/-- Whether a fetch outcome is a network-level failure (the only kind the
retry loop retries). -/
def FetchOutcome.isNetworkFailure : FetchOutcome → Bool
  | .networkFailure _ => true
  | _ => false

/-- Observable trace of one `request` call: the client state afterwards,
the result, how many fetch attempts were made, and the sleep delays taken
between retried attempts. -/
structure RequestTrace where
  finalState : ClientState
  result : RequestResult
  attemptsMade : Nat
  delays : List Nat
  deriving Repr, DecidableEq

/-- The retry loop of `QueryGeneratorAPIClient.request`, from attempt index
`attempt`, with one pending fetch outcome per remaining loop iteration (the
list carries `config.api.retryAttempts` entries at the start of a call).
A 401 response clears the stored token and throws `AuthenticationError`;
any other non-ok response throws `ApiError`; both are rethrown without
retry.  A network failure sleeps `retryDelay * (attempt + 1)` and retries
while an iteration remains; when the loop ends a `NetworkError` is
thrown. -/
def requestFrom (cfgDelay attempt : Nat) (st : ClientState) :
    List FetchOutcome → RequestTrace
  | [] => ⟨st, .networkError, attempt, []⟩
  | oc :: rest =>
    match oc with
    | .success body => ⟨st, .ok body, attempt + 1, []⟩
    | .httpError status msg =>
      if status = 401 then ⟨{ st with token := none }, .authError, attempt + 1, []⟩
      else ⟨st, .apiError status msg, attempt + 1, []⟩
    | .networkFailure _ =>
      match rest with
      | [] => ⟨st, .networkError, attempt + 1, []⟩
      | _ :: _ =>
        let t := requestFrom cfgDelay (attempt + 1) st rest
        ⟨t.finalState, t.result, t.attemptsMade, cfgDelay * (attempt + 1) :: t.delays⟩

/-- One full `request` call: the loop starts at attempt 0 and may use each
listed outcome in order (one per configured retry attempt). -/
def runRequest (retryDelay : Nat) (st : ClientState)
    (outs : List FetchOutcome) : RequestTrace :=
  requestFrom retryDelay 0 st outs

/-- `QueryGeneratorAPIClient.generateQuery`: in demo mode a canned result
is returned without any HTTP request; otherwise the call is one `request`
to the generate endpoint.  The canned demo body is abstracted to a fixed
string (its timing fields depend on the wall clock and are irrelevant to
the client-state claims). -/
def generateQuery (retryDelay : Nat) (st : ClientState)
    (outs : List FetchOutcome) : RequestTrace :=
  if st.demoMode then ⟨st, .ok "demo-query-result", 0, []⟩
  else runRequest retryDelay st outs

/-- The trace produced when the loop ends at the attempt that received a
non-network outcome: the result is returned or the error rethrown
immediately, with no further attempt and no further delay. -/
def headResultTrace (attempt : Nat) (st : ClientState) : FetchOutcome → RequestTrace
  | .success body => ⟨st, .ok body, attempt + 1, []⟩
  | .httpError status msg =>
    if status = 401 then ⟨{ st with token := none }, .authError, attempt + 1, []⟩
    else ⟨st, .apiError status msg, attempt + 1, []⟩
  | .networkFailure _ => ⟨st, .networkError, attempt + 1, []⟩

/-! ### The policy dialog (`PolicyDialog` component) -/

/-- The form state of the policy dialog at save time. -/
structure PolicyForm where
  allowWrite : Bool
  defaultLimit : Nat
  maxRowsReturned : Option Nat
  piiMaskingEnabled : Bool
  bannedTables : List String
  bannedColumns : List String
  bannedSchemas : List String
  piiTags : List String
  allowedFunctions : List String
  blockedFunctions : List String
  deriving Repr, DecidableEq

/-- The request body `handleSave` sends (those `UpdatePolicyRequest` fields
the dialog populates). -/
structure UpdatePolicyRequest where
  allow_write : Bool
  default_limit : Nat
  max_rows_returned : Option Nat
  pii_masking_enabled : Bool
  banned_tables : List String
  banned_columns : List String
  banned_schemas : List String
  pii_tags : List String
  allowed_functions : Option (List String)
  blocked_functions : Option (List String)
  deriving Repr, DecidableEq

/-- The `updateData` object built by `PolicyDialog.handleSave`: the
function lists are sent as `null` unless non-empty. -/
def buildUpdatePolicyRequest (f : PolicyForm) : UpdatePolicyRequest :=
  { allow_write := f.allowWrite
    default_limit := f.defaultLimit
    max_rows_returned := f.maxRowsReturned
    pii_masking_enabled := f.piiMaskingEnabled
    banned_tables := f.bannedTables
    banned_columns := f.bannedColumns
    banned_schemas := f.bannedSchemas
    pii_tags := f.piiTags
    allowed_functions := if 0 < f.allowedFunctions.length then some f.allowedFunctions else none
    blocked_functions := if 0 < f.blockedFunctions.length then some f.blockedFunctions else none }

/-- Dropping leading and trailing elements satisfying `p` — the shape of
JavaScript's `String.prototype.trim`. -/
def dropEnds (p : α → Bool) (l : List α) : List α :=
  (l.dropWhile p).rdropWhile p

/-- Model of `value.trim()`: whitespace removed from both ends. -/
def trimStr (s : String) : String :=
  String.mk (dropEnds Char.isWhitespace s.data)

/-- The `addItem` helper of the policy dialog: trim the input; when the
trimmed value is non-empty and not already present, append it; otherwise
leave the list unchanged. -/
def addItem (value : String) (prev : List String) : List String :=
  if trimStr value = "" then prev
  else if trimStr value ∈ prev then prev
  else prev ++ [trimStr value]

/-- The `removeItem` helper of the policy dialog: drop every occurrence of
the value. -/
def removeItem (value : String) (prev : List String) : List String :=
  prev.filter (fun item => item ≠ value)

/-- The invariant claimed of every restriction list the dialog edits: no
duplicates and no entry that is empty or whitespace-only. -/
def cleanItemList (l : List String) : Prop :=
  l.Nodup ∧ ∀ x ∈ l, trimStr x ≠ ""

instance (l : List String) : Decidable (cleanItemList l) := by
  unfold cleanItemList
  infer_instance

/-! ### Sample concrete inputs used by witnesses -/

/-- A dialect parser stub that fails on every input (the adapter contract
under test never reaches it in the multi-statement witnesses). -/
def parseNone : String → Option Statement := fun _ => none

/-- A permissive baseline policy. -/
def polBase : SecurityPolicy :=
  { allow_write := false
    default_limit := none
    max_rows_returned := none
    banned_tables := []
    banned_columns := []
    banned_schemas := []
    pii_tags := []
    pii_masking_enabled := false
    allowed_functions := none
    blocked_functions := [] }

/-- Scenario E input: two statements. -/
def qMulti : CandidateQuery := ⟨"SELECT 1; DROP TABLE users;", "postgresql", "cat-1"⟩

/-- A one-statement candidate. -/
def qSingle : CandidateQuery := ⟨"SELECT * FROM users", "postgresql", "cat-1"⟩

/-- A parser stub returning a blocked write statement. -/
def parseDropUsers : String → Option Statement :=
  fun _ => some (.writeStmt .drop "DROP TABLE users")

/-- `SELECT * FROM users` with no LIMIT. -/
def selNoLimit : SelectStmt :=
  { ctes := []
    tables := [⟨none, "users"⟩]
    projections := [⟨"*", none, none⟩]
    columns := []
    functions := []
    limit := none }

/-- `SELECT * FROM users LIMIT 50`. -/
def selLimit50 : SelectStmt :=
  { selNoLimit with limit := some 50 }

/-- Policy with a default limit of 1000. -/
def polDefault1000 : SecurityPolicy :=
  { polBase with default_limit := some 1000 }

/-- Policy with a hard cap of 10 rows. -/
def polMax10 : SecurityPolicy :=
  { polBase with max_rows_returned := some 10 }

/-- A query whose CTE shadows the banned table `user_passwords`. -/
def selCteShadow : SelectStmt :=
  { ctes := [⟨"user_passwords", [⟨none, "audit_log"⟩], [], []⟩]
    tables := [⟨none, "user_passwords"⟩]
    projections := [⟨"*", none, none⟩]
    columns := []
    functions := []
    limit := none }

/-- Policy banning the table `user_passwords`. -/
def polBanUserPasswords : SecurityPolicy :=
  { polBase with banned_tables := ["user_passwords"] }

/-- A non-demo client state holding a token. -/
def stTok : ClientState := ⟨some "tok", "http://localhost:8000", false⟩

/-- Fetch outcomes: three attempts available, the first answers 401. -/
def o401 : List FetchOutcome :=
  [.httpError 401 "unauthorized", .httpError 401 "unauthorized",
   .httpError 401 "unauthorized"]

/-- Fetch outcomes: one network failure, then a 500 response. -/
def oNetThen500 : List FetchOutcome :=
  [.networkFailure "timeout", .httpError 500 "boom", .httpError 500 "boom"]

/-- A sample saved policy form with one allowed function and no blocked
functions. -/
def formSample : PolicyForm :=
  { allowWrite := false
    defaultLimit := 1000
    maxRowsReturned := none
    piiMaskingEnabled := false
    bannedTables := []
    bannedColumns := []
    bannedSchemas := []
    piiTags := []
    allowedFunctions := ["COUNT"]
    blockedFunctions := [] }

/-! ### Helper lemmas -/

/-- A blocked write, a hard-violating SELECT and an unanalyzable construct
all produce a rejected decision. -/
theorem evaluateStmt_rejected_of_violations (st : Statement) (p : SecurityPolicy)
    (h : (evaluateStmt st p).violations ≠ []) :
    (evaluateStmt st p).final_sql = none := by
  cases st with
  | unsupported d => rfl
  | writeStmt k raw =>
    by_cases hw : p.allow_write = true
    · exact absurd (by simp [evaluateStmt, hw]) h
    · simp [evaluateStmt, hw, rejectedDecision]
  | selectStmt s =>
    by_cases hv : (selectViolations s p).isEmpty = true
    · exact absurd (by simp [evaluateStmt, hv, acceptSelectDecision]) h
    · simp [evaluateStmt, hv, rejectedDecision]

/-- A decision with an empty violation list can only come from an empty
rule-evaluator output. -/
theorem selectViolations_isEmpty_of_decision (s : SelectStmt) (p : SecurityPolicy)
    (h : (evaluateStmt (.selectStmt s) p).violations = []) :
    (selectViolations s p).isEmpty = true := by
  by_contra hv
  have hform : (evaluateStmt (.selectStmt s) p).violations = selectViolations s p := by
    simp [evaluateStmt, hv, rejectedDecision]
  rw [hform] at h
  exact hv (by simp [h])

/-- Violations from the banned-schema check carry the `banned_schema`
tag. -/
theorem mem_bannedSchemaViolations_kind (s : SelectStmt) (p : SecurityPolicy)
    (v : Violation) (h : v ∈ bannedSchemaViolations s p) :
    v.kind = ViolationKind.banned_schema := by
  rcases List.mem_filterMap.mp h with ⟨sch, _, hfr⟩
  split at hfr
  · cases hfr; rfl
  · simp at hfr

/-- Violations from the banned-column check carry the `banned_column`
tag. -/
theorem mem_bannedColumnViolations_kind (s : SelectStmt) (p : SecurityPolicy)
    (v : Violation) (h : v ∈ bannedColumnViolations s p) :
    v.kind = ViolationKind.banned_column := by
  rcases List.mem_filterMap.mp h with ⟨c, _, hfc⟩
  split at hfc
  · cases hfc; rfl
  · simp at hfc

/-- Violations from the function-restriction check carry the
`disallowed_function` tag. -/
theorem mem_functionViolations_kind (s : SelectStmt) (p : SecurityPolicy)
    (v : Violation) (h : v ∈ functionViolations s p) :
    v.kind = ViolationKind.disallowed_function := by
  rcases List.mem_filterMap.mp h with ⟨f, _, hff⟩
  by_cases hw : whitelistMode p = true
  · rw [if_pos hw] at hff
    by_cases hmem : f ∈ allowedFold p
    · rw [if_pos hmem] at hff; simp at hff
    · rw [if_neg hmem] at hff; cases hff; rfl
  · rw [if_neg hw] at hff
    by_cases hmem : f ∈ p.blocked_functions.map foldFn
    · rw [if_pos hmem] at hff; cases hff; rfl
    · rw [if_neg hmem] at hff; simp at hff

/-! ### Claim theorems -/

/-- Claim C1: whenever evaluation produces at least one violation, the
decision carries `final_sql = none`; the engine never returns a partially
rewritten query (and, being a total function, never escalates beyond a
rejection). -/
theorem violations_imply_null_sql (parse1 : String → Option Statement)
    (q : CandidateQuery) (p : SecurityPolicy)
    (h : (evaluate parse1 q p).violations ≠ []) :
    (evaluate parse1 q p).final_sql = none := by
  by_cases hm : 1 < (topLevelStatements q.sql).length
  · simp [evaluate, hm, multiStatementDecision, rejectedDecision]
  · cases hp : parse1 q.sql with
    | none => simp [evaluate, hm, hp, syntaxErrorDecision]
    | some st =>
      have h2 : (evaluateStmt st p).violations ≠ [] := by
        simpa [evaluate, hm, hp] using h
      simpa [evaluate, hm, hp] using evaluateStmt_rejected_of_violations st p h2

/-- Witness for C1: a DROP under a read-only policy has a violation, so the
theorem applies and yields a null final SQL. -/
theorem violations_imply_null_sql_witness :
    (evaluate parseDropUsers qSingle polBase).violations ≠ [] ∧
    (evaluate parseDropUsers qSingle polBase).final_sql = none :=
  ⟨by decide, violations_imply_null_sql parseDropUsers qSingle polBase (by decide)⟩

/-- Claim C2: a SELECT with no LIMIT clause evaluated under
`default_limit = n > 0` (and passing all checks) gets `LIMIT n` appended
and `applied_actions.default_limit_applied = true`. -/
theorem default_limit_is_applied (s : SelectStmt) (p : SecurityPolicy) (n : Nat)
    (hl : s.limit = none) (hd : p.default_limit = some n) (hn : 0 < n)
    (hok : (evaluateStmt (.selectStmt s) p).violations = []) :
    (evaluateStmt (.selectStmt s) p).final_sql =
      some (renderSelect (rewriteSelect s p).1) ∧
    (rewriteSelect s p).1.limit = some n ∧
    (evaluateStmt (.selectStmt s) p).applied_actions.default_limit_applied = true ∧
    (evaluateStmt (.selectStmt s) p).applied_actions.effective_limit = some n := by
  have hv := selectViolations_isEmpty_of_decision s p hok
  have hlim : limitRewrite s.limit p = ⟨some n, true⟩ := by
    simp [limitRewrite, hl, hd, hn]
  refine ⟨by simp [evaluateStmt, hv, acceptSelectDecision], ?_, ?_, ?_⟩
  · simp [rewriteSelect, hlim]
  · simp [evaluateStmt, hv, acceptSelectDecision, rewriteSelect, hlim]
  · simp [evaluateStmt, hv, acceptSelectDecision, rewriteSelect, hlim]

/-- Witness for C2: `SELECT * FROM users` with `default_limit = 1000`. -/
theorem default_limit_is_applied_witness :
    (evaluateStmt (.selectStmt selNoLimit) polDefault1000).final_sql =
      some (renderSelect (rewriteSelect selNoLimit polDefault1000).1) ∧
    (rewriteSelect selNoLimit polDefault1000).1.limit = some 1000 ∧
    (evaluateStmt (.selectStmt selNoLimit) polDefault1000).applied_actions.default_limit_applied = true ∧
    (evaluateStmt (.selectStmt selNoLimit) polDefault1000).applied_actions.effective_limit = some 1000 :=
  default_limit_is_applied selNoLimit polDefault1000 1000 rfl rfl (by decide) (by decide)

/-- Claim C3: evaluation is deterministic — two calls on identical inputs
produce identical `PolicyDecision` values (the engine is modelled as a pure
function of its inputs, so this holds definitionally). -/
theorem evaluate_deterministic (parse1 : String → Option Statement)
    (q : CandidateQuery) (p : SecurityPolicy) :
    evaluate parse1 q p = evaluate parse1 q p := rfl

/-- Claim C4: input with more than one top-level statement is rejected
unconditionally, for every parser, query and policy, with the
`multi_statement_rejected` violation. -/
theorem multi_statement_always_rejected (parse1 : String → Option Statement)
    (q : CandidateQuery) (p : SecurityPolicy)
    (h : 1 < (topLevelStatements q.sql).length) :
    (evaluate parse1 q p).final_sql = none ∧
    Violation.mk ViolationKind.multi_statement_rejected "" ∈
      (evaluate parse1 q p).violations := by
  simp [evaluate, h, multiStatementDecision, rejectedDecision]

/-- Witness for C4: Scenario E's input splits into two statements and is
rejected. -/
theorem multi_statement_always_rejected_witness :
    (evaluate parseNone qMulti polBase).final_sql = none ∧
    Violation.mk ViolationKind.multi_statement_rejected "" ∈
      (evaluate parseNone qMulti polBase).violations :=
  multi_statement_always_rejected parseNone qMulti polBase (by decide)

/-- Claim C5: a SELECT already carrying `LIMIT m` with
`max_rows_returned = k` and `m > k` (and passing all checks) is not
blocked: the limit clause is clamped down to `k`.  The violation set never
depends on the LIMIT value, so an oversized LIMIT alone can never reject a
query. -/
theorem oversized_limit_clamped (s : SelectStmt) (p : SecurityPolicy) (m k : Nat)
    (hl : s.limit = some m) (hk : p.max_rows_returned = some k) (hmk : k < m)
    (hok : (evaluateStmt (.selectStmt s) p).violations = []) :
    (evaluateStmt (.selectStmt s) p).final_sql =
      some (renderSelect (rewriteSelect s p).1) ∧
    (rewriteSelect s p).1.limit = some k ∧
    (evaluateStmt (.selectStmt s) p).applied_actions.effective_limit = some k ∧
    (∀ lim, selectViolations { s with limit := lim } p = selectViolations s p) := by
  have hv := selectViolations_isEmpty_of_decision s p hok
  have hlim : limitRewrite s.limit p = ⟨some k, false⟩ := by
    simp [limitRewrite, hl, hk, hmk]
  refine ⟨by simp [evaluateStmt, hv, acceptSelectDecision], ?_, ?_, fun _ => rfl⟩
  · simp [rewriteSelect, hlim]
  · simp [evaluateStmt, hv, acceptSelectDecision, rewriteSelect, hlim]

/-- Witness for C5: `LIMIT 50` under `max_rows_returned = 10` is clamped
to 10. -/
theorem oversized_limit_clamped_witness :
    (evaluateStmt (.selectStmt selLimit50) polMax10).final_sql =
      some (renderSelect (rewriteSelect selLimit50 polMax10).1) ∧
    (rewriteSelect selLimit50 polMax10).1.limit = some 10 ∧
    (evaluateStmt (.selectStmt selLimit50) polMax10).applied_actions.effective_limit = some 10 ∧
    (∀ lim, selectViolations { selLimit50 with limit := lim } polMax10 =
      selectViolations selLimit50 polMax10) :=
  oversized_limit_clamped selLimit50 polMax10 50 10 rfl rfl (by decide) (by decide)

/-- Claim C6: a CTE whose (case-folded) name collides with a banned table
never yields a `banned_table` violation for that name: the name is
registered as scope-local, so in-scope (unqualified) references to it are
excluded by the resolver.  The hypothesis `hq` states that every reference
bearing that name is such an in-scope, unqualified reference. -/
theorem cte_shadowing_excludes_banned_table (s : SelectStmt) (p : SecurityPolicy)
    (c : CteDef) (hc : c ∈ s.ctes)
    (_hb : foldId c.name ∈ p.banned_tables.map foldId)
    (hq : ∀ r ∈ allTableRefs s, foldId r.name = foldId c.name → r.schema = none) :
    ∀ v ∈ (evaluateStmt (.selectStmt s) p).violations,
      v.kind = ViolationKind.banned_table → foldId v.ident ≠ foldId c.name := by
  have key : ∀ v ∈ selectViolations s p,
      v.kind = ViolationKind.banned_table → foldId v.ident ≠ foldId c.name := by
    intro v hv hk heq
    unfold selectViolations at hv
    rcases List.mem_append.mp hv with hv | hv4
    rcases List.mem_append.mp hv with hv | hv3
    rcases List.mem_append.mp hv with hv1 | hv2
    · -- the banned-table list itself: the offending reference cannot exist
      rcases List.mem_filterMap.mp hv1 with ⟨r, hr, hfr⟩
      have hrv : v.ident = r.name := by
        split at hfr
        · cases hfr; rfl
        · simp at hfr
      rw [hrv] at heq
      have hr2 := List.mem_filter.mp (List.mem_dedup.mp hr)
      have hsch : r.schema = none := hq r hr2.1 heq
      have hmem : foldId r.name ∈ cteNamesFold s := by
        rw [heq]
        exact List.mem_map.mpr ⟨c, hc, rfl⟩
      have : isScopeLocal s r = true := by
        simp [isScopeLocal, hsch, hmem]
      simp [this] at hr2
    · exact absurd (hk ▸ mem_bannedSchemaViolations_kind s p v hv2) (by simp)
    · exact absurd (hk ▸ mem_bannedColumnViolations_kind s p v hv3) (by simp)
    · exact absurd (hk ▸ mem_functionViolations_kind s p v hv4) (by simp)
  by_cases hNe : (selectViolations s p).isEmpty = true
  · intro v hv
    simp [evaluateStmt, hNe, acceptSelectDecision] at hv
  · intro v hv hk
    exact key v (by simpa [evaluateStmt, hNe, rejectedDecision] using hv) hk

/-- Witness for C6: the CTE `user_passwords` shadows the banned table of
the same name; the `banned_table` violation for it does not occur. -/
theorem cte_shadowing_excludes_banned_table_witness :
    Violation.mk ViolationKind.banned_table "user_passwords" ∉
      (evaluateStmt (.selectStmt selCteShadow) polBanUserPasswords).violations := by
  intro hmem
  exact cte_shadowing_excludes_banned_table selCteShadow polBanUserPasswords
    ⟨"user_passwords", [⟨none, "audit_log"⟩], [], []⟩
    (by decide) (by decide) (by decide)
    ⟨ViolationKind.banned_table, "user_passwords"⟩ hmem rfl rfl

/-! ### Retry-loop unfolding lemmas -/

/-- With no attempt left the loop falls through to `NetworkError`. -/
theorem requestFrom_nil (cfgD attempt : Nat) (st : ClientState) :
    requestFrom cfgD attempt st [] = ⟨st, .networkError, attempt, []⟩ := rfl

/-- An ok response returns at once. -/
theorem requestFrom_success_head (cfgD attempt : Nat) (st : ClientState)
    (body : String) (tail : List FetchOutcome) :
    requestFrom cfgD attempt st (.success body :: tail) =
      ⟨st, .ok body, attempt + 1, []⟩ := rfl

/-- A non-ok response throws at once: 401 clears the token and throws
`AuthenticationError`, anything else throws `ApiError`. -/
theorem requestFrom_http_head (cfgD attempt : Nat) (st : ClientState)
    (status : Nat) (msg : String) (tail : List FetchOutcome) :
    requestFrom cfgD attempt st (.httpError status msg :: tail) =
      if status = 401 then ⟨{ st with token := none }, .authError, attempt + 1, []⟩
      else ⟨st, .apiError status msg, attempt + 1, []⟩ := rfl

/-- A network failure on the last available attempt ends in
`NetworkError`. -/
theorem requestFrom_net_last (cfgD attempt : Nat) (st : ClientState) (msg : String) :
    requestFrom cfgD attempt st [.networkFailure msg] =
      ⟨st, .networkError, attempt + 1, []⟩ := rfl

/-- A network failure with attempts left sleeps `cfgD * (attempt + 1)` and
retries. -/
theorem requestFrom_net_cons (cfgD attempt : Nat) (st : ClientState) (msg : String)
    (oc : FetchOutcome) (tail : List FetchOutcome) :
    requestFrom cfgD attempt st (.networkFailure msg :: oc :: tail) =
      ⟨(requestFrom cfgD (attempt + 1) st (oc :: tail)).finalState,
       (requestFrom cfgD (attempt + 1) st (oc :: tail)).result,
       (requestFrom cfgD (attempt + 1) st (oc :: tail)).attemptsMade,
       cfgD * (attempt + 1) :: (requestFrom cfgD (attempt + 1) st (oc :: tail)).delays⟩ := rfl

/-- The only client-state change the retry loop can make is clearing the
token. -/
theorem requestFrom_finalState (cfgD : Nat) (st : ClientState) :
    ∀ (outs : List FetchOutcome) (attempt : Nat),
      (requestFrom cfgD attempt st outs).finalState = st ∨
      (requestFrom cfgD attempt st outs).finalState = { st with token := none } := by
  intro outs
  induction outs with
  | nil => intro attempt; left; rfl
  | cons oc rest ih =>
    intro attempt
    cases oc with
    | success body => left; rw [requestFrom_success_head]
    | httpError status msg =>
      rw [requestFrom_http_head]
      by_cases h4 : status = 401
      · right; simp [h4]
      · left; simp [h4]
    | networkFailure msg =>
      cases rest with
      | nil => left; rw [requestFrom_net_last]
      | cons oc2 rest2 =>
        rw [requestFrom_net_cons]
        exact ih (attempt + 1)

/-- The delay list accumulated by one more retried attempt. -/
theorem delays_shift (cfgD attempt n : Nat) :
    cfgD * (attempt + 1) ::
        (List.range n).map (fun k => cfgD * (attempt + 1 + k + 1)) =
      (List.range (n + 1)).map (fun k => cfgD * (attempt + k + 1)) := by
  rw [List.range_succ_eq_map, List.map_cons, List.map_map]
  congr 1
  apply List.map_congr_left
  intro a _
  simp [Function.comp]
  omega

/-- The loop retries exactly the leading network failures; the first
non-network outcome ends the call right there. -/
theorem requestFrom_stops (cfgD : Nat) (st : ClientState) :
    ∀ (pre : List FetchOutcome) (attempt : Nat) (oc : FetchOutcome)
      (rest : List FetchOutcome),
      oc.isNetworkFailure = false →
      (∀ x ∈ pre, x.isNetworkFailure = true) →
      requestFrom cfgD attempt st (pre ++ oc :: rest) =
        { headResultTrace (attempt + pre.length) st oc with
          delays := (List.range pre.length).map (fun k => cfgD * (attempt + k + 1)) } := by
  intro pre
  induction pre with
  | nil =>
    intro attempt oc rest hoc _
    rw [List.nil_append]
    cases oc with
    | success body => simp [requestFrom_success_head, headResultTrace]
    | httpError status msg =>
      rw [requestFrom_http_head]
      by_cases h4 : status = 401 <;> simp [h4, headResultTrace]
    | networkFailure msg => simp [FetchOutcome.isNetworkFailure] at hoc
  | cons x pre2 ih =>
    intro attempt oc rest hoc hnet
    have hx := hnet x (List.mem_cons_self x pre2)
    cases x with
    | success body => simp [FetchOutcome.isNetworkFailure] at hx
    | httpError status msg => simp [FetchOutcome.isNetworkFailure] at hx
    | networkFailure msg =>
      have hnet2 : ∀ y ∈ pre2, y.isNetworkFailure = true := fun y hy =>
        hnet y (List.mem_cons_of_mem _ hy)
      have hrec := ih (attempt + 1) oc rest hoc hnet2
      cases pre2 with
      | nil =>
        rw [List.cons_append, List.nil_append, requestFrom_net_cons]
        rw [List.nil_append] at hrec
        rw [hrec]
        simp [List.range_succ]
      | cons y pre3 =>
        rw [List.cons_append, List.cons_append, requestFrom_net_cons]
        rw [List.cons_append] at hrec
        rw [hrec]
        simp only [List.length_cons]
        rw [delays_shift]
        have harith : attempt + 1 + (pre3.length + 1) = attempt + (pre3.length + 1 + 1) := by
          omega
        rw [harith]

/-- When every available attempt fails at the network level, the loop runs
them all and then throws `NetworkError`. -/
theorem requestFrom_all_network (cfgD : Nat) (st : ClientState) :
    ∀ (outs : List FetchOutcome) (attempt : Nat),
      (∀ x ∈ outs, x.isNetworkFailure = true) →
      requestFrom cfgD attempt st outs =
        ⟨st, .networkError, attempt + outs.length,
         (List.range (outs.length - 1)).map (fun k => cfgD * (attempt + k + 1))⟩ := by
  intro outs
  induction outs with
  | nil => intro attempt _; rw [requestFrom_nil]; simp
  | cons oc rest ih =>
    intro attempt hnet
    have hx := hnet oc (List.mem_cons_self oc rest)
    cases oc with
    | success body => simp [FetchOutcome.isNetworkFailure] at hx
    | httpError status msg => simp [FetchOutcome.isNetworkFailure] at hx
    | networkFailure msg =>
      have hnet2 : ∀ y ∈ rest, y.isNetworkFailure = true := fun y hy =>
        hnet y (List.mem_cons_of_mem _ hy)
      cases rest with
      | nil => rw [requestFrom_net_last]; simp
      | cons oc2 rest2 =>
        rw [requestFrom_net_cons, ih (attempt + 1) hnet2]
        simp only [List.length_cons, Nat.add_sub_cancel]
        rw [delays_shift]
        have harith : attempt + 1 + (rest2.length + 1) = attempt + (rest2.length + 1 + 1) := by
          omega
        rw [harith]

/-! ### Client and dialog claim theorems -/

/-- Claim C7 counterexample: a `generateQuery` call whose HTTP response
is a 401 clears the stored token, so the client state is not preserved. -/
theorem generateQuery_mutates_state_on_401 :
    (generateQuery 1000 stTok o401).finalState ≠ stTok := by decide

/-- Claim C7 (amended): `generateQuery` leaves `baseUrl` and `demoMode`
untouched, and leaves `token` untouched except that a 401 response clears
it to `none`. -/
theorem generateQuery_client_state_frame (cfgD : Nat) (st : ClientState)
    (outs : List FetchOutcome) :
    (generateQuery cfgD st outs).finalState.baseUrl = st.baseUrl ∧
    (generateQuery cfgD st outs).finalState.demoMode = st.demoMode ∧
    ((generateQuery cfgD st outs).finalState.token = st.token ∨
     (generateQuery cfgD st outs).finalState.token = none) := by
  by_cases hd : st.demoMode = true
  · simp [generateQuery, hd]
  · rcases requestFrom_finalState cfgD st outs 0 with h | h <;>
      simp [generateQuery, hd, runRequest, h]

/-- Claim C10: the retry loop never retries an HTTP-level failure — an
`ApiError` or `AuthenticationError` is rethrown on the attempt that
produced it — while network failures are retried with delay
`retryDelay * (attempt + 1)` each, and once every available attempt has
failed at the network level a `NetworkError` is thrown. -/
theorem request_retry_discipline (cfgD : Nat) (st : ClientState) :
    (∀ (pre : List FetchOutcome) (oc : FetchOutcome) (rest : List FetchOutcome),
      oc.isNetworkFailure = false →
      (∀ x ∈ pre, x.isNetworkFailure = true) →
      runRequest cfgD st (pre ++ oc :: rest) =
        { headResultTrace pre.length st oc with
          delays := (List.range pre.length).map (fun k => cfgD * (k + 1)) }) ∧
    (∀ outs : List FetchOutcome,
      (∀ x ∈ outs, x.isNetworkFailure = true) →
      runRequest cfgD st outs =
        ⟨st, .networkError, outs.length,
         (List.range (outs.length - 1)).map (fun k => cfgD * (k + 1))⟩) := by
  constructor
  · intro pre oc rest hoc hnet
    have h := requestFrom_stops cfgD st pre 0 oc rest hoc hnet
    rw [runRequest, h]
    simp
  · intro outs hnet
    have h := requestFrom_all_network cfgD st outs 0 hnet
    rw [runRequest, h]
    simp

/-- Witness for C10: a network failure is retried once with delay 100,
then the 500 response is rethrown immediately as an `ApiError` on the
second attempt. -/
theorem request_retry_discipline_witness :
    runRequest 100 stTok
        ([FetchOutcome.networkFailure "timeout"] ++
          FetchOutcome.httpError 500 "boom" :: [FetchOutcome.httpError 500 "boom"]) =
      ⟨stTok, .apiError 500 "boom", 2, [100]⟩ := by
  have h := (request_retry_discipline 100 stTok).1
    [FetchOutcome.networkFailure "timeout"] (FetchOutcome.httpError 500 "boom")
    [FetchOutcome.httpError 500 "boom"] (by decide) (by decide)
  simpa [headResultTrace] using h

/-- Claim C8: the saved `UpdatePolicyRequest` carries
`allowed_functions = null` exactly when the allowed list is empty, likewise
for `blocked_functions`; an empty array is never sent for either field. -/
theorem save_sends_null_for_empty_function_lists (f : PolicyForm) :
    ((buildUpdatePolicyRequest f).allowed_functions = none ↔ f.allowedFunctions = []) ∧
    ((buildUpdatePolicyRequest f).blocked_functions = none ↔ f.blockedFunctions = []) ∧
    (buildUpdatePolicyRequest f).allowed_functions ≠ some [] ∧
    (buildUpdatePolicyRequest f).blocked_functions ≠ some [] := by
  cases haf : f.allowedFunctions <;> cases hbf : f.blockedFunctions <;>
    simp [buildUpdatePolicyRequest, haf, hbf]

/-- Witness for C8 at a concrete form: a one-element allowed list is sent
as-is, an empty blocked list is sent as `null`. -/
theorem save_sends_null_witness :
    (buildUpdatePolicyRequest formSample).allowed_functions = some ["COUNT"] ∧
    (buildUpdatePolicyRequest formSample).blocked_functions = none :=
  ⟨by decide, (save_sends_null_for_empty_function_lists formSample).2.1.mpr rfl⟩

/-- A prefix of a list whose head does not satisfy `p` keeps that
property. -/
theorem dropWhile_eq_self_of_prefix {α : Type} {p : α → Bool} {y x : List α}
    (hpre : y <+: x) (hx : x.dropWhile p = x) : y.dropWhile p = y := by
  rw [List.dropWhile_eq_self_iff] at hx ⊢
  intro hl
  obtain ⟨t, rfl⟩ := hpre
  have hx0 : 0 < (y ++ t).length := by
    rw [List.length_append]; omega
  have h2 := hx hx0
  rwa [List.get_append] at h2

/-- Dropping whitespace from both ends is idempotent. -/
theorem dropEnds_idempotent {α : Type} (p : α → Bool) (l : List α) :
    dropEnds p (dropEnds p l) = dropEnds p l := by
  unfold dropEnds
  have h1 : ((l.dropWhile p).rdropWhile p).dropWhile p = (l.dropWhile p).rdropWhile p :=
    dropWhile_eq_self_of_prefix (List.rdropWhile_prefix p (l.dropWhile p))
      (List.dropWhile_idempotent p l)
  rw [h1, List.rdropWhile_idempotent]

/-- `trim` is idempotent: trimming a trimmed string changes nothing. -/
theorem trimStr_idempotent (s : String) : trimStr (trimStr s) = trimStr s := by
  unfold trimStr
  rw [show (String.mk (dropEnds Char.isWhitespace s.data)).data =
      dropEnds Char.isWhitespace s.data from rfl]
  rw [dropEnds_idempotent]

/-- Claim C9: `addItem` and `removeItem` preserve the restriction-list
invariant (duplicate-free, no empty or whitespace-only entries); `addItem`
trims its input and leaves the list unchanged when the trimmed value is
empty or already present; `removeItem` only removes entries. -/
theorem restriction_lists_stay_clean (v : String) (l : List String)
    (h : cleanItemList l) :
    cleanItemList (addItem v l) ∧ cleanItemList (removeItem v l) ∧
    (∀ x ∈ removeItem v l, x ∈ l) ∧
    (trimStr v = "" → addItem v l = l) ∧
    (trimStr v ∈ l → addItem v l = l) := by
  obtain ⟨hnd, hcl⟩ := h
  refine ⟨?_, ?_, ?_, ?_, ?_⟩
  · by_cases he : trimStr v = ""
    · simp only [addItem, if_pos he]; exact ⟨hnd, hcl⟩
    · by_cases hm : trimStr v ∈ l
      · simp only [addItem, if_neg he, if_pos hm]; exact ⟨hnd, hcl⟩
      · simp only [addItem, if_neg he, if_neg hm]
        constructor
        · rw [List.nodup_append]
          exact ⟨hnd, List.nodup_singleton _, by simp [hm]⟩
        · intro x hx
          rcases List.mem_append.mp hx with hx | hx
          · exact hcl x hx
          · rw [List.mem_singleton.mp hx, trimStr_idempotent]
            exact he
  · exact ⟨hnd.filter _, fun x hx => hcl x (List.mem_of_mem_filter hx)⟩
  · exact fun x hx => List.mem_of_mem_filter hx
  · intro he; simp only [addItem, if_pos he]
  · intro hm
    by_cases he : trimStr v = ""
    · simp only [addItem, if_pos he]
    · simp only [addItem, if_neg he, if_pos hm]

/-- Witness for C9 on a clean one-element list: re-adding the existing
entry leaves the list unchanged, removing it empties the list, and both
results stay clean. -/
theorem restriction_lists_stay_clean_witness :
    cleanItemList (addItem "orders" ["orders"]) ∧
    cleanItemList (removeItem "orders" ["orders"]) ∧
    (∀ x ∈ removeItem "orders" ["orders"], x ∈ ["orders"]) ∧
    (trimStr "orders" = "" → addItem "orders" ["orders"] = ["orders"]) ∧
    (trimStr "orders" ∈ ["orders"] → addItem "orders" ["orders"] = ["orders"]) :=
  restriction_lists_stay_clean "orders" ["orders"] (by decide)

end QueryGen
